import Mathlib

/-!
Shallow embedding of the reaction handlers (`reaction_handler.go`) of this
repository: the batched response-hydration engine for reaction facts, the
list/post HTTP handlers, and the transactional unit-of-work around them.
Machinery the repository consumes but does not define in this file's source
(the user and livestream hydrators, the SQL engine) is modelled from the
spec where a claim depends on it; every such definition is marked.
-/

/-- Store-level failure (a Go `error` value from the sqlx layer). -/
abbrev StoreError := String

/-- Modelled from the spec: raw `users` table row (`UserModel` lives in another
file of the repository). Only identity and display name are represented. -/
structure UserModel where
  ID : Int
  Name : String
deriving Repr, DecidableEq

/-- Modelled from the spec: hydrated user entity (`User` lives in another file
of the repository). -/
structure User where
  ID : Int
  Name : String
deriving Repr, DecidableEq

/-- The Go zero value `User\x7b\x7d`. -/
instance : Inhabited User := ⟨{ ID := 0, Name := "" }⟩

/-- Modelled from the spec: raw `livestreams` table row (`LivestreamModel`
lives in another file of the repository). -/
structure LivestreamModel where
  ID : Int
  Title : String
deriving Repr, DecidableEq

/-- Modelled from the spec: hydrated livestream entity (`Livestream` lives in
another file of the repository). Its own nested references (owner, tags) are
elided: no claim in this development inspects them. -/
structure Livestream where
  ID : Int
  Title : String
deriving Repr, DecidableEq

/-- The Go zero value `Livestream\x7b\x7d`. -/
instance : Inhabited Livestream := ⟨{ ID := 0, Title := "" }⟩

/-- `ReactionModel`: one fact row of the `reactions` table. -/
structure ReactionModel where
  ID : Int
  EmojiName : String
  UserID : Int
  LivestreamID : Int
  CreatedAt : Int
deriving Repr, DecidableEq

/-- `Reaction`: the hydrated response object. -/
structure Reaction where
  ID : Int
  EmojiName : String
  User : User
  Livestream : Livestream
  CreatedAt : Int
deriving Repr, DecidableEq

/-- Go map access `m[k]`: the stored value when `k` is present, the zero value
of the element type otherwise. Maps are association lists keyed by `int64`. -/
def mapLookup {α : Type} [Inhabited α] (m : List (Int × α)) (k : Int) : α :=
  match m.find? (fun kv => kv.1 == k) with
  | some kv => kv.2
  | none => default

/-- Modelled from the spec: `fillUserResponseV2` (defined in another file of
the repository) turns the fetched raw user rows into the resolver's mapping
from user id to hydrated user. Its own nested lookups are outside this model;
per the spec it issues no query when given no rows. -/
def fillUserResponseV2 (userModels : List UserModel) : List (Int × User) :=
  userModels.map (fun um => (um.ID, { ID := um.ID, Name := um.Name }))

/-- Modelled from the spec: `fillLivestreamResponse` (defined in another file
of the repository) hydrates raw livestream rows in order. -/
def fillLivestreamResponse (livestreamModels : List LivestreamModel) : List Livestream :=
  livestreamModels.map (fun lm => { ID := lm.ID, Title := lm.Title })

/-- Ghost record of one query issued against the transactional store. -/
inductive Query where
  /-- The reactions list query, with the final SQL text after any `LIMIT`
  interpolation, and the bound livestream id parameter. -/
  | reactionsList (sqlText : String) (livestreamID : Int)
  /-- The batched `SELECT * FROM users WHERE id IN (?)` with its key list. -/
  | usersIn (keys : List Int)
  /-- The batched `SELECT * FROM livestreams WHERE id IN (?)` with its key list. -/
  | livestreamsIn (keys : List Int)
  /-- The `INSERT INTO reactions ...` with the row being written. -/
  | insertRow (row : ReactionModel)
deriving Repr, DecidableEq

/-- True exactly on insert queries. -/
def Query.isInsert : Query → Bool
  | .insertRow _ => true
  | _ => false

/-- True exactly on reads of the reactions (fact) table. -/
def Query.isFactRead : Query → Bool
  | .reactionsList _ _ => true
  | _ => false

/-- The transactional store as seen through one transaction: each operation
either returns rows or fails with a `StoreError`. -/
structure Store where
  selectReactions : Int → Option Int → Except StoreError (List ReactionModel)
  selectUsersIn : List Int → Except StoreError (List UserModel)
  selectLivestreamsIn : List Int → Except StoreError (List LivestreamModel)
  insertReaction : ReactionModel → Except StoreError Int
  beginOk : Bool
  commitOk : Bool

/-- Digits to the natural number they denote, most significant first. -/
def digitsToNat (cs : List Char) : Nat :=
  cs.foldl (fun acc c => acc * 10 + (c.toNat - Char.toNat (Char.ofNat 48))) 0

/-- Go `strconv.Atoi`: optional sign, then one or more digits; anything else is
an error. (The `int64` range check is elided; no claim depends on overflow.) -/
def atoi (s : String) : Option Int :=
  match s.data with
  | [] => none
  | '+' :: rest =>
      if rest.isEmpty then none
      else if rest.all Char.isDigit then some (digitsToNat rest) else none
  | '-' :: rest =>
      if rest.isEmpty then none
      else if rest.all Char.isDigit then some (-(digitsToNat rest : Int)) else none
  | l => if l.all Char.isDigit then some (digitsToNat l) else none

/-- The SQL text of the reactions list query after the handler's
`fmt.Sprintf(" LIMIT %d", limit)` interpolation, when a limit was supplied. -/
def reactionsQueryString (limit : Option Int) : String :=
  let base := "SELECT * FROM reactions WHERE livestream_id = ? ORDER BY created_at DESC"
  match limit with
  | none => base
  | some n => base ++ " LIMIT " ++ toString n

/-- The handler's limit handling: empty query parameter means no limit
(`some none`); a parse failure of a non-empty parameter is `none`. -/
def parseLimitParam (s : String) : Option (Option Int) :=
  if s == "" then some none else (atoi s).map some

/-- Lines 143-156 of `fillReactionResponse`: fetch the users referenced by the
facts. One key per fact; the query is skipped entirely when there are no keys. -/
def fetchUsers (st : Store) (userIds : List Int) :
    Except StoreError (List UserModel) × List Query :=
  if userIds.isEmpty then (Except.ok [], [])
  else (st.selectUsersIn userIds, [Query.usersIn userIds])

/-- Lines 164-169 of `fillReactionResponse`: fetch the livestreams referenced
by the facts, with the same empty-key short-circuit. -/
def fetchLivestreams (st : Store) (livestreamIds : List Int) :
    Except StoreError (List LivestreamModel) × List Query :=
  if livestreamIds.isEmpty then (Except.ok [], [])
  else (st.selectLivestreamsIn livestreamIds, [Query.livestreamsIn livestreamIds])

/-- Lines 179-189 of `fillReactionResponse`: the assembly loop. One `Reaction`
per input fact, in input order; user and livestream come from Go map accesses,
so a missing key yields the zero-value entity. -/
def assembleReactions (userMap : List (Int × User)) (liveMap : List (Int × Livestream))
    (reactionModels : List ReactionModel) : List Reaction :=
  reactionModels.map (fun rm =>
    { ID := rm.ID
      EmojiName := rm.EmojiName
      User := mapLookup userMap rm.UserID
      Livestream := mapLookup liveMap rm.LivestreamID
      CreatedAt := rm.CreatedAt })

/-- `fillReactionResponse`: batched hydration of a list of fact rows inside the
caller's transaction. Returns the result and the ghost list of issued queries. -/
def fillReactionResponse (st : Store) (reactionModels : List ReactionModel) :
    Except StoreError (List Reaction) × List Query :=
  let userIds := reactionModels.map (fun rm => rm.UserID)
  let livestreamIds := reactionModels.map (fun rm => rm.LivestreamID)
  match fetchUsers st userIds with
  | (Except.error e, qs1) => (Except.error e, qs1)
  | (Except.ok reactionOwnerModels, qs1) =>
    let reactionOwnerMap := fillUserResponseV2 reactionOwnerModels
    match fetchLivestreams st livestreamIds with
    | (Except.error e, qs2) => (Except.error e, qs1 ++ qs2)
    | (Except.ok livestreamModels, qs2) =>
      let livestreams := fillLivestreamResponse livestreamModels
      let livestreamIdToLivestreamMap := livestreams.map (fun l => (l.ID, l))
      (Except.ok (assembleReactions reactionOwnerMap livestreamIdToLivestreamMap reactionModels),
        qs1 ++ qs2)

/-- State of the one transaction owned by a handler's unit of work. -/
inductive TxState where
  | active
  | committed
  | rolledBack
deriving Repr, DecidableEq

/-- `tx.Rollback()`: rolls back an active transaction; after a successful
commit it is a no-op (Go returns `sql.ErrTxDone`, which `defer` discards). -/
def TxState.rollbackTx : TxState → TxState
  | .active => .rolledBack
  | s => s

/-- An `echo.NewHTTPError` with its status code. -/
structure HttpError where
  status : Nat
deriving Repr, DecidableEq

/-- Request-level inputs of `getReactionsHandler`: session validity, the
`livestream_id` path parameter, the `limit` query parameter (empty if absent). -/
structure GetReq where
  sessionOk : Bool
  livestreamIDParam : String
  limitParam : String
deriving Repr

/-- Request-level inputs of `postReactionHandler`. `userID` is the session's
user id, `now` the insertion timestamp `time.Now().Unix()`. -/
structure PostReq where
  livestreamIDParam : String
  sessionOk : Bool
  userID : Int
  bodyDecodeOk : Bool
  emojiName : String
  now : Int
deriving Repr

/-- Body of `getReactionsHandler` between `BeginTxx` and function exit: the
transaction is `active` unless `Commit` succeeded. The deferred rollback is
applied by the caller on every exit path. -/
def getReactionsInTx (st : Store) (limitParam : String) (livestreamID : Int) :
    Except HttpError (List Reaction) × TxState × List Query :=
  match parseLimitParam limitParam with
  | none => (Except.error { status := 400 }, TxState.active, [])
  | some limit =>
    match st.selectReactions livestreamID limit with
    | Except.error _ => (Except.error { status := 404 }, TxState.active,
        [Query.reactionsList (reactionsQueryString limit) livestreamID])
    | Except.ok reactionModels =>
      match fillReactionResponse st reactionModels with
      | (Except.error _, qs) => (Except.error { status := 500 }, TxState.active,
          Query.reactionsList (reactionsQueryString limit) livestreamID :: qs)
      | (Except.ok reactions, qs) =>
        if st.commitOk then (Except.ok reactions, TxState.committed,
          Query.reactionsList (reactionsQueryString limit) livestreamID :: qs)
        else (Except.error { status := 500 }, TxState.active,
          Query.reactionsList (reactionsQueryString limit) livestreamID :: qs)

/-- `getReactionsHandler`: session check, path parsing, begin, deferred
rollback, list, hydrate, commit. The middle component is the final transaction
state (`none` when no transaction was ever begun); the last is the query log. -/
def getReactionsHandler (st : Store) (req : GetReq) :
    Except HttpError (List Reaction) × Option TxState × List Query :=
  if req.sessionOk then
    match atoi req.livestreamIDParam with
    | none => (Except.error { status := 400 }, none, [])
    | some livestreamID =>
      if st.beginOk then
        let r := getReactionsInTx st req.limitParam livestreamID
        (r.1, some r.2.1.rollbackTx, r.2.2)
      else (Except.error { status := 500 }, none, [])
  else (Except.error { status := 401 }, none, [])

/-- The in-memory fact built by `postReactionHandler` before the insert; the
identity is the Go zero value until the store assigns one. -/
def mkInsertModel (req : PostReq) (livestreamID : Int) : ReactionModel :=
  { ID := 0
    UserID := req.userID
    LivestreamID := livestreamID
    EmojiName := req.emojiName
    CreatedAt := req.now }

/-- The fact after `reactionModel.ID = reactionID`: the in-memory row carrying
the store-assigned identity. -/
def insertedModel (req : PostReq) (livestreamID reactionID : Int) : ReactionModel :=
  { ID := reactionID
    UserID := req.userID
    LivestreamID := livestreamID
    EmojiName := req.emojiName
    CreatedAt := req.now }

/-- Body of `postReactionHandler` between `BeginTxx` and function exit. The
outer `Option` models the `reactions[0]` index: `none` is the runtime panic
that would occur if hydration returned an empty slice. -/
def postReactionInTx (st : Store) (req : PostReq) (livestreamID : Int) :
    Option (Except HttpError Reaction) × TxState × List Query :=
  match st.insertReaction (mkInsertModel req livestreamID) with
  | Except.error _ =>
      (some (Except.error { status := 500 }), TxState.active,
        [Query.insertRow (mkInsertModel req livestreamID)])
  | Except.ok reactionID =>
    match fillReactionResponse st [insertedModel req livestreamID reactionID] with
    | (Except.error _, qs) =>
        (some (Except.error { status := 500 }), TxState.active,
          Query.insertRow (mkInsertModel req livestreamID) :: qs)
    | (Except.ok reactions, qs) =>
      match reactions with
      | [] => (none, TxState.active, Query.insertRow (mkInsertModel req livestreamID) :: qs)
      | r :: _ =>
        if st.commitOk then (some (Except.ok r), TxState.committed,
          Query.insertRow (mkInsertModel req livestreamID) :: qs)
        else (some (Except.error { status := 500 }), TxState.active,
          Query.insertRow (mkInsertModel req livestreamID) :: qs)

/-- `postReactionHandler`: path parsing, session check, body decoding, begin,
deferred rollback, insert, identity round-trip, hydrate, commit. -/
def postReactionHandler (st : Store) (req : PostReq) :
    Option (Except HttpError Reaction) × Option TxState × List Query :=
  match atoi req.livestreamIDParam with
  | none => (some (Except.error { status := 400 }), none, [])
  | some livestreamID =>
    if req.sessionOk then
      if req.bodyDecodeOk then
        if st.beginOk then
          let r := postReactionInTx st req livestreamID
          (r.1, some r.2.1.rollbackTx, r.2.2)
        else (some (Except.error { status := 500 }), none, [])
      else (some (Except.error { status := 400 }), none, [])
    else (some (Except.error { status := 401 }), none, [])

/-- Newest-first order on fact rows: creation timestamp descending. -/
def reactionGE (a b : ReactionModel) : Prop := b.CreatedAt ≤ a.CreatedAt

instance : DecidableRel reactionGE := fun a b =>
  inferInstanceAs (Decidable (b.CreatedAt ≤ a.CreatedAt))

instance : IsTotal ReactionModel reactionGE :=
  ⟨fun a b => (le_total b.CreatedAt a.CreatedAt).imp id id⟩

instance : IsTrans ReactionModel reactionGE :=
  ⟨fun _ _ _ hab hbc => le_trans hbc hab⟩

/-- Concrete database contents backing an honest store. -/
structure DB where
  reactions : List ReactionModel
  users : List UserModel
  livestreams : List LivestreamModel
  nextID : Int
deriving Repr

/-- Modelled from the spec: semantics of the query
`SELECT * FROM reactions WHERE livestream_id = ? ORDER BY created_at DESC`
(optionally with `LIMIT n`) as executed by the external store engine: filter by
scope, sort newest first, truncate. A negative interpolated limit is a SQL
error in the engine. -/
def sqlListReactions (db : DB) (livestreamID : Int) (limit : Option Int) :
    Except StoreError (List ReactionModel) :=
  let rows := List.insertionSort reactionGE
    (db.reactions.filter (fun rm => rm.LivestreamID == livestreamID))
  match limit with
  | none => Except.ok rows
  | some n => if n < 0 then Except.error ("syntax error near LIMIT") else Except.ok (rows.take n.toNat)

/-- Modelled from the spec: an honest, never-failing store over concrete
database contents, with standard `IN (...)` semantics. -/
def Store.ofDB (db : DB) : Store where
  selectReactions := fun livestreamID limit => sqlListReactions db livestreamID limit
  selectUsersIn := fun keys => Except.ok (db.users.filter (fun u => keys.contains u.ID))
  selectLivestreamsIn := fun keys => Except.ok (db.livestreams.filter (fun l => keys.contains l.ID))
  insertReaction := fun _ => Except.ok db.nextID
  beginOk := true
  commitOk := true

/-- Example database: three facts on livestream 42, two of them by user 7. -/
def dbEx : DB where
  reactions := [
    { ID := 1, EmojiName := "fire", UserID := 7, LivestreamID := 42, CreatedAt := 100 },
    { ID := 2, EmojiName := "heart", UserID := 7, LivestreamID := 42, CreatedAt := 300 },
    { ID := 3, EmojiName := "clap", UserID := 8, LivestreamID := 42, CreatedAt := 200 }]
  users := [{ ID := 7, Name := "alice" }, { ID := 8, Name := "bob" }]
  livestreams := [{ ID := 42, Title := "live" }]
  nextID := 101

/-- The hydrated responses for the three facts of `dbEx`. -/
def rsEx : List Reaction := [
  { ID := 1, EmojiName := "fire", User := { ID := 7, Name := "alice" },
    Livestream := { ID := 42, Title := "live" }, CreatedAt := 100 },
  { ID := 2, EmojiName := "heart", User := { ID := 7, Name := "alice" },
    Livestream := { ID := 42, Title := "live" }, CreatedAt := 300 },
  { ID := 3, EmojiName := "clap", User := { ID := 8, Name := "bob" },
    Livestream := { ID := 42, Title := "live" }, CreatedAt := 200 }]

/-- Two facts that reference the same user and the same livestream. -/
def msDup : List ReactionModel := [
  { ID := 10, EmojiName := "fire", UserID := 7, LivestreamID := 42, CreatedAt := 100 },
  { ID := 11, EmojiName := "heart", UserID := 7, LivestreamID := 42, CreatedAt := 300 }]

/-- A well-formed list request with no limit parameter. -/
def getReqPlain : GetReq := { sessionOk := true, livestreamIDParam := "42", limitParam := "" }

/-- A list request whose limit parameter is a negative integer. -/
def getReqNeg : GetReq := { sessionOk := true, livestreamIDParam := "42", limitParam := "-1" }

/-- A list request whose limit parameter is not an integer at all. -/
def getReqAbc : GetReq := { sessionOk := true, livestreamIDParam := "42", limitParam := "abc" }

/-- A well-formed post request by user 7 on livestream 42. -/
def postReqEx : PostReq :=
  { livestreamIDParam := "42", sessionOk := true, userID := 7, bodyDecodeOk := true,
    emojiName := "fire", now := 400 }

/-- The response to `postReqEx` against `Store.ofDB dbEx`. -/
def rEx : Reaction :=
  { ID := 101, EmojiName := "fire", User := { ID := 7, Name := "alice" },
    Livestream := { ID := 42, Title := "live" }, CreatedAt := 400 }

/-- A store where every operation fails. -/
def stFail : Store where
  selectReactions := fun _ _ => Except.error ("store down")
  selectUsersIn := fun _ => Except.error ("store down")
  selectLivestreamsIn := fun _ => Except.error ("store down")
  insertReaction := fun _ => Except.error ("store down")
  beginOk := true
  commitOk := true

/-- A store where the insert succeeds but the hydration lookups fail. -/
def stPartial : Store where
  selectReactions := fun _ _ => Except.ok []
  selectUsersIn := fun _ => Except.error ("store down")
  selectLivestreamsIn := fun _ => Except.error ("store down")
  insertReaction := fun _ => Except.ok 101
  beginOk := true
  commitOk := true

/-- The two newest facts of `dbEx`: timestamps 300 and 200, in that order. -/
def rowsTop2 : List ReactionModel := [
  { ID := 2, EmojiName := "heart", UserID := 7, LivestreamID := 42, CreatedAt := 300 },
  { ID := 3, EmojiName := "clap", UserID := 8, LivestreamID := 42, CreatedAt := 200 }]

/-- The one-element hydration of the first fact of `dbEx`. -/
def rsOne : List Reaction := [
  { ID := 1, EmojiName := "fire", User := { ID := 7, Name := "alice" },
    Livestream := { ID := 42, Title := "live" }, CreatedAt := 100 }]

theorem fill_ok_shape (st : Store) (models : List ReactionModel) (rs : List Reaction)
    (h : (fillReactionResponse st models).1 = Except.ok rs) :
    ∃ um lm, rs = assembleReactions um lm models := by
  simp only [fillReactionResponse] at h
  split at h
  · simp at h
  · split at h
    · simp at h
    · simp only [Except.ok.injEq] at h
      exact ⟨_, _, h.symm⟩

theorem fill_singleton_ok_length (st : Store) (rm : ReactionModel) (rs : List Reaction)
    (h : (fillReactionResponse st [rm]).1 = Except.ok rs) : rs.length = 1 := by
  obtain ⟨um, lm, rfl⟩ := fill_ok_shape st [rm] rs h
  simp [assembleReactions]

/-- C1: for every input sequence of fact rows, `fillReactionResponse` on
success produces exactly one hydrated response per input fact, and the output
order equals the input order: the i-th response carries the i-th fact's
identity, payload and timestamp. -/
theorem C1_one_response_per_fact_in_order (st : Store) (models : List ReactionModel)
    (rs : List Reaction) (h : (fillReactionResponse st models).1 = Except.ok rs) :
    rs.length = models.length ∧
      ∀ i (h1 : i < rs.length) (h2 : i < models.length),
        (rs.get ⟨i, h1⟩).ID = (models.get ⟨i, h2⟩).ID ∧
        (rs.get ⟨i, h1⟩).EmojiName = (models.get ⟨i, h2⟩).EmojiName ∧
        (rs.get ⟨i, h1⟩).CreatedAt = (models.get ⟨i, h2⟩).CreatedAt := by
  obtain ⟨um, lm, rfl⟩ := fill_ok_shape st models rs h
  refine ⟨by simp [assembleReactions], ?_⟩
  intro i h1 h2
  simp [assembleReactions]

/-- C1 witness: on the concrete database `dbEx`, hydrating its three facts
succeeds with exactly three responses. -/
theorem C1_witness : rsEx.length = dbEx.reactions.length :=
  (C1_one_response_per_fact_in_order (Store.ofDB dbEx) dbEx.reactions rsEx (by rfl)).1

/-- C2: in the assembly loop, a fact whose user key or livestream key is
absent from the corresponding resolved map gets the zero-value entity for that
field; the fact stays in the output and the row count is unchanged. -/
theorem C2_missing_key_zero_value (um : List (Int × User)) (lm : List (Int × Livestream))
    (models : List ReactionModel) (i : Nat) (h1 : i < models.length)
    (h2 : i < (assembleReactions um lm models).length) :
    (assembleReactions um lm models).length = models.length ∧
    (um.find? (fun kv => kv.1 == (models.get ⟨i, h1⟩).UserID) = none →
      ((assembleReactions um lm models).get ⟨i, h2⟩).User = default) ∧
    (lm.find? (fun kv => kv.1 == (models.get ⟨i, h1⟩).LivestreamID) = none →
      ((assembleReactions um lm models).get ⟨i, h2⟩).Livestream = default) := by
  refine ⟨by simp [assembleReactions], ?_, ?_⟩ <;> intro hnone <;>
    simp only [List.get_eq_getElem] at hnone <;>
    simp [assembleReactions, mapLookup, hnone]

/-- C2 witness: a fact referencing user 99 and livestream 5 against empty
resolved maps stays in the output with zero-value user and livestream. -/
theorem C2_witness :
    (assembleReactions [] []
      [{ ID := 1, EmojiName := "fire", UserID := 99, LivestreamID := 5, CreatedAt := 100 }]).length = 1 ∧
    ((assembleReactions [] []
      [{ ID := 1, EmojiName := "fire", UserID := 99, LivestreamID := 5, CreatedAt := 100 }]).get
        ⟨0, by decide⟩).User = default :=
  ⟨(C2_missing_key_zero_value [] []
      [{ ID := 1, EmojiName := "fire", UserID := 99, LivestreamID := 5, CreatedAt := 100 }]
      0 (by decide) (by decide)).1,
   (C2_missing_key_zero_value [] []
      [{ ID := 1, EmojiName := "fire", UserID := 99, LivestreamID := 5, CreatedAt := 100 }]
      0 (by decide) (by decide)).2.1 rfl⟩

/-- C3 counterexample: two facts by the same user 7 on the same livestream 42
produce a batched user query whose embedded key list is [7, 7] — the keys are
not deduplicated before the lookup is issued. -/
theorem C3_counterexample :
    (fillReactionResponse (Store.ofDB dbEx) msDup).2 =
      [Query.usersIn [7, 7], Query.livestreamsIn [42, 42]] ∧
    ¬ ([7, 7] : List Int).Nodup := ⟨rfl, by decide⟩

/-- C3 amended: for every non-empty fact list, on success exactly one batched
lookup is issued per reference type, and each embedded key list carries one key
per input fact in input order — duplicate keys are not removed. -/
theorem C3_amended_per_fact_key_lists (st : Store) (models : List ReactionModel)
    (rs : List Reaction) (hne : models ≠ [])
    (h : (fillReactionResponse st models).1 = Except.ok rs) :
    (fillReactionResponse st models).2 =
      [Query.usersIn (models.map (fun rm => rm.UserID)),
       Query.livestreamsIn (models.map (fun rm => rm.LivestreamID))] := by
  have hU : (models.map (fun rm => rm.UserID)).isEmpty = false := by
    simp [List.isEmpty_iff, hne]
  have hL : (models.map (fun rm => rm.LivestreamID)).isEmpty = false := by
    simp [List.isEmpty_iff, hne]
  simp only [fillReactionResponse, fetchUsers, fetchLivestreams, hU, hL,
    Bool.false_eq_true, if_false] at h ⊢
  rcases hsel : st.selectUsersIn (models.map (fun rm => rm.UserID)) with e | ums <;>
    simp only [hsel] at h ⊢
  · simp at h
  · rcases hsel2 : st.selectLivestreamsIn (models.map (fun rm => rm.LivestreamID)) with e | lms <;>
      simp only [hsel2] at h ⊢
    · simp at h
    · rfl

/-- C3 amended witness: the concrete duplicate-key run issues exactly the two
batched lookups with per-fact key lists. -/
theorem C3_amended_witness :
    (fillReactionResponse (Store.ofDB dbEx) msDup).2 =
      [Query.usersIn (msDup.map (fun rm => rm.UserID)),
       Query.livestreamsIn (msDup.map (fun rm => rm.LivestreamID))] :=
  C3_amended_per_fact_key_lists (Store.ofDB dbEx) msDup
    (assembleReactions (fillUserResponseV2 [{ ID := 7, Name := "alice" }])
      [((42 : Int), { ID := 42, Title := "live" })] msDup)
    (by decide) (by rfl)

/-- C4: for an empty input fact sequence, no query is issued at all — neither
the user lookup nor the livestream lookup — and the hydration returns the
empty output; the user hydrator maps no rows to the empty mapping. -/
theorem C4_empty_keys_zero_queries (st : Store) :
    fillReactionResponse st [] = (Except.ok [], []) ∧
    fetchUsers st [] = (Except.ok [], []) ∧
    fetchLivestreams st [] = (Except.ok [], []) ∧
    fillUserResponseV2 [] = [] ∧
    fillLivestreamResponse [] = [] :=
  ⟨rfl, rfl, rfl, rfl, rfl⟩

/-- C5 counterexample: the limit parameter "-1" is an integer but not a
non-negative one; the handler does not reject it — the fact query is executed
with the value interpolated into the SQL text as "LIMIT -1". -/
theorem C5_counterexample :
    atoi ("-1") = some (-1) ∧ ((-1 : Int) < 0) ∧
    (getReactionsHandler (Store.ofDB dbEx) getReqNeg).2.2 =
      [Query.reactionsList
        ("SELECT * FROM reactions WHERE livestream_id = ? ORDER BY created_at DESC LIMIT -1") 42] :=
  ⟨rfl, by decide, rfl⟩

/-- C5 amended: for every non-empty limit parameter that does not parse as an
integer (optional sign plus digits), the handler rejects the request with a
400 client error, executes no query, and the transaction rolls back; negative
integers, however, pass this validation and are interpolated into the SQL. -/
theorem C5_amended_integer_validation (st : Store) (req : GetReq) (lsid : Int)
    (hs : req.sessionOk = true) (hp : atoi req.livestreamIDParam = some lsid)
    (hb : st.beginOk = true) (hne : req.limitParam ≠ "") (hbad : atoi req.limitParam = none) :
    (getReactionsHandler st req).1 = Except.error { status := 400 } ∧
    (getReactionsHandler st req).2.2 = [] ∧
    (getReactionsHandler st req).2.1 = some TxState.rolledBack := by
  have hpl : parseLimitParam req.limitParam = none := by
    simp [parseLimitParam, hbad, hne]
  simp [getReactionsHandler, hs, hp, hb, getReactionsInTx, hpl, TxState.rollbackTx]

/-- C5 amended witness: limit parameter "abc" yields a 400, no query, and a
rolled-back transaction. -/
theorem C5_witness :
    (getReactionsHandler (Store.ofDB dbEx) getReqAbc).1 = Except.error { status := 400 } ∧
    (getReactionsHandler (Store.ofDB dbEx) getReqAbc).2.2 = [] ∧
    (getReactionsHandler (Store.ofDB dbEx) getReqAbc).2.1 = some TxState.rolledBack :=
  C5_amended_integer_validation (Store.ofDB dbEx) getReqAbc 42 rfl rfl rfl (by decide) rfl

/-- C6 counterexample: when the initial fact query fails, the list handler
surfaces the failure as a 404 not-found — a client outcome — not as a server
error (the transaction does still roll back). -/
theorem C6_counterexample :
    (getReactionsHandler stFail getReqPlain).1 = Except.error { status := 404 } ∧
    (getReactionsHandler stFail getReqPlain).2.1 = some TxState.rolledBack ∧
    (404 : Nat) ≠ 500 := ⟨rfl, rfl, by decide⟩

/-- C6 amended: every store read failure in the list operation rolls the
transaction back and never commits; a failure of the initial accessor query is
surfaced as a 404 not-found, while a failure inside the resolver/hydrator
(`fillReactionResponse`) is surfaced as a 500 server error. -/
theorem C6_amended_rollback_and_statuses (st : Store) (req : GetReq) (lsid : Int)
    (limit : Option Int) (hs : req.sessionOk = true)
    (hp : atoi req.livestreamIDParam = some lsid) (hb : st.beginOk = true)
    (hl : parseLimitParam req.limitParam = some limit) :
    (∀ e, st.selectReactions lsid limit = Except.error e →
      (getReactionsHandler st req).1 = Except.error { status := 404 } ∧
      (getReactionsHandler st req).2.1 = some TxState.rolledBack) ∧
    (∀ ms e, st.selectReactions lsid limit = Except.ok ms →
      (fillReactionResponse st ms).1 = Except.error e →
      (getReactionsHandler st req).1 = Except.error { status := 500 } ∧
      (getReactionsHandler st req).2.1 = some TxState.rolledBack) ∧
    (∀ e, (getReactionsHandler st req).1 = Except.error e →
      (getReactionsHandler st req).2.1 ≠ some TxState.committed) := by
  refine ⟨?_, ?_, ?_⟩
  · intro e hsel
    simp [getReactionsHandler, hs, hp, hb, getReactionsInTx, hl, hsel, TxState.rollbackTx]
  · intro ms e hsel hfill
    rcases hfr : fillReactionResponse st ms with ⟨fres, qs⟩
    rw [hfr] at hfill
    simp only at hfill
    subst hfill
    simp [getReactionsHandler, hs, hp, hb, getReactionsInTx, hl, hsel, hfr, TxState.rollbackTx]
  · intro e herr hcommit
    simp only [getReactionsHandler, hs, hp, hb, getReactionsInTx, hl, if_true] at herr hcommit
    rcases hsel : st.selectReactions lsid limit with e2 | ms <;>
      simp only [hsel] at herr hcommit
    · simp [TxState.rollbackTx] at hcommit
    · rcases hfr : fillReactionResponse st ms with ⟨fres, qs⟩
      rcases fres with e3 | reactions <;> simp only [hfr] at herr hcommit
      · simp [TxState.rollbackTx] at hcommit
      · rcases hc : st.commitOk <;> simp only [hc] at herr hcommit <;>
          simp_all [TxState.rollbackTx]

/-- C6 amended witness: against a store whose fact query fails, the plain list
request ends in a 404 with the transaction rolled back. -/
theorem C6_witness :
    (getReactionsHandler stFail getReqPlain).1 = Except.error { status := 404 } ∧
    (getReactionsHandler stFail getReqPlain).2.1 = some TxState.rolledBack :=
  (C6_amended_rollback_and_statuses stFail getReqPlain 42 none rfl rfl rfl rfl).1
    ("store down") rfl

theorem getReactionsInTx_cases (st : Store) (lp : String) (lsid : Int) :
    ((getReactionsInTx st lp lsid).2.1 = TxState.committed ∧
      ∃ rs, (getReactionsInTx st lp lsid).1 = Except.ok rs) ∨
    ((getReactionsInTx st lp lsid).2.1 = TxState.active ∧
      ∃ e, (getReactionsInTx st lp lsid).1 = Except.error e) := by
  unfold getReactionsInTx
  split
  · exact Or.inr ⟨rfl, _, rfl⟩
  · split
    · exact Or.inr ⟨rfl, _, rfl⟩
    · split
      · exact Or.inr ⟨rfl, _, rfl⟩
      · split
        · exact Or.inl ⟨rfl, _, rfl⟩
        · exact Or.inr ⟨rfl, _, rfl⟩

theorem postReactionInTx_cases (st : Store) (req : PostReq) (lsid : Int) :
    ((postReactionInTx st req lsid).2.1 = TxState.committed ∧
      ∃ r, (postReactionInTx st req lsid).1 = some (Except.ok r)) ∨
    ((postReactionInTx st req lsid).2.1 = TxState.active ∧
      ∃ e, (postReactionInTx st req lsid).1 = some (Except.error e)) := by
  unfold postReactionInTx
  split
  · exact Or.inr ⟨rfl, _, rfl⟩
  · split
    · exact Or.inr ⟨rfl, _, rfl⟩
    · split
      · exfalso
        rename_i heq
        have hlen := fill_singleton_ok_length st _ [] (by rw [heq])
        simp at hlen
      · split
        · exact Or.inl ⟨rfl, _, rfl⟩
        · exact Or.inr ⟨rfl, _, rfl⟩

theorem getHandler_cases (st : Store) (req : GetReq) :
    ((getReactionsHandler st req).2.1 = none ∧
      ∃ e, (getReactionsHandler st req).1 = Except.error e) ∨
    ((getReactionsHandler st req).2.1 = some TxState.committed ∧
      ∃ rs, (getReactionsHandler st req).1 = Except.ok rs) ∨
    ((getReactionsHandler st req).2.1 = some TxState.rolledBack ∧
      ∃ e, (getReactionsHandler st req).1 = Except.error e) := by
  unfold getReactionsHandler
  split
  · split
    · exact Or.inl ⟨rfl, _, rfl⟩
    · split
      · rename_i lsid hpar hbeg
        rcases getReactionsInTx_cases st req.limitParam lsid with ⟨htx, rs, hres⟩ | ⟨htx, e, hres⟩
        · exact Or.inr (Or.inl ⟨by simp [htx, TxState.rollbackTx], rs, by simp [hres]⟩)
        · exact Or.inr (Or.inr ⟨by simp [htx, TxState.rollbackTx], e, by simp [hres]⟩)
      · exact Or.inl ⟨rfl, _, rfl⟩
  · exact Or.inl ⟨rfl, _, rfl⟩

theorem postHandler_cases (st : Store) (req : PostReq) :
    ((postReactionHandler st req).2.1 = none ∧
      ∃ e, (postReactionHandler st req).1 = some (Except.error e)) ∨
    ((postReactionHandler st req).2.1 = some TxState.committed ∧
      ∃ r, (postReactionHandler st req).1 = some (Except.ok r)) ∨
    ((postReactionHandler st req).2.1 = some TxState.rolledBack ∧
      ∃ e, (postReactionHandler st req).1 = some (Except.error e)) := by
  unfold postReactionHandler
  split
  · exact Or.inl ⟨rfl, _, rfl⟩
  · split
    · split
      · split
        · rename_i lsid hpar hsess hbody hbeg
          rcases postReactionInTx_cases st req lsid with ⟨htx, r, hres⟩ | ⟨htx, e, hres⟩
          · exact Or.inr (Or.inl ⟨by simp [htx, TxState.rollbackTx], r, by simp [hres]⟩)
          · exact Or.inr (Or.inr ⟨by simp [htx, TxState.rollbackTx], e, by simp [hres]⟩)
        · exact Or.inl ⟨rfl, _, rfl⟩
      · exact Or.inl ⟨rfl, _, rfl⟩
    · exact Or.inl ⟨rfl, _, rfl⟩

/-- C7: in both handlers the deferred rollback closes the transaction on every
exit path: the final state is never left `active`; it is `committed` exactly
when the handler returns a success, and `rolledBack` on every error exit after
begin (so a failure mid-hydration, here a hydrator failure after a successful
insert, commits nothing); rollback after a successful commit is a no-op. -/
theorem C7_tx_state_machine (st : Store) (greq : GetReq) (preq : PostReq) :
    TxState.rollbackTx TxState.committed = TxState.committed ∧
    TxState.rollbackTx TxState.active = TxState.rolledBack ∧
    ((getReactionsHandler st greq).2.1 ≠ some TxState.active ∧
      ((getReactionsHandler st greq).2.1 = some TxState.committed ↔
        ∃ rs, (getReactionsHandler st greq).1 = Except.ok rs)) ∧
    ((postReactionHandler st preq).2.1 ≠ some TxState.active ∧
      ((postReactionHandler st preq).2.1 = some TxState.committed ↔
        ∃ r, (postReactionHandler st preq).1 = some (Except.ok r))) ∧
    (∀ lsid rid e, atoi preq.livestreamIDParam = some lsid → preq.sessionOk = true →
      preq.bodyDecodeOk = true → st.beginOk = true →
      st.insertReaction (mkInsertModel preq lsid) = Except.ok rid →
      (fillReactionResponse st [insertedModel preq lsid rid]).1 =
        Except.error e →
      (postReactionHandler st preq).2.1 = some TxState.rolledBack) := by
  refine ⟨rfl, rfl, ?_, ?_, ?_⟩
  · rcases getHandler_cases st greq with ⟨htx, e, hres⟩ | ⟨htx, rs, hres⟩ | ⟨htx, e, hres⟩ <;>
      exact ⟨by simp [htx], by simp [htx, hres]⟩
  · rcases postHandler_cases st preq with ⟨htx, e, hres⟩ | ⟨htx, r, hres⟩ | ⟨htx, e, hres⟩ <;>
      exact ⟨by simp [htx], by simp [htx, hres]⟩
  · intro lsid rid e hp hs hbd hb hins hfill
    rcases hfr : fillReactionResponse st [insertedModel preq lsid rid]
      with ⟨fres, qs⟩
    rw [hfr] at hfill
    simp only at hfill
    subst hfill
    simp [postReactionHandler, hp, hs, hbd, hb, postReactionInTx, hins, hfr, TxState.rollbackTx]

/-- C7 witness: against a store whose hydration lookups fail after a
successful insert, the post unit-of-work ends rolled back. -/
theorem C7_witness : (postReactionHandler stPartial postReqEx).2.1 = some TxState.rolledBack :=
  (C7_tx_state_machine stPartial getReqPlain postReqEx).2.2.2.2 42 101 ("store down")
    rfl rfl rfl rfl rfl rfl

theorem fill_queries_shape (st : Store) (ms : List ReactionModel) :
    (fillReactionResponse st ms).2 = [] ∨
    (fillReactionResponse st ms).2 = [Query.usersIn (ms.map (fun rm => rm.UserID))] ∨
    (fillReactionResponse st ms).2 =
      [Query.usersIn (ms.map (fun rm => rm.UserID)),
       Query.livestreamsIn (ms.map (fun rm => rm.LivestreamID))] := by
  by_cases hms : ms = []
  · subst hms
    exact Or.inl rfl
  · have hU : (ms.map (fun rm => rm.UserID)).isEmpty = false := by
      simp [List.isEmpty_iff, hms]
    have hL : (ms.map (fun rm => rm.LivestreamID)).isEmpty = false := by
      simp [List.isEmpty_iff, hms]
    simp only [fillReactionResponse, fetchUsers, fetchLivestreams, hU, hL,
      Bool.false_eq_true, if_false]
    cases hu : st.selectUsersIn (ms.map (fun rm => rm.UserID)) with
    | error e => exact Or.inr (Or.inl rfl)
    | ok ums =>
      cases hl2 : st.selectLivestreamsIn (ms.map (fun rm => rm.LivestreamID)) with
      | error e => exact Or.inr (Or.inr rfl)
      | ok lms => exact Or.inr (Or.inr rfl)

/-- C8: the post handler writes exactly one row (exactly one insert query in
its log), round-trips the store-assigned identity onto the in-memory fact, and
hydrates that same fact with no read of the reactions table (no read-back
query); the returned response carries the assigned identity, the inserted
emoji, timestamp, and the user and livestream resolved for the inserted keys. -/
theorem C8_insert_identity_roundtrip (st : Store) (req : PostReq) (lsid rid : Int)
    (r : Reaction)
    (hp : atoi req.livestreamIDParam = some lsid) (hs : req.sessionOk = true)
    (hbd : req.bodyDecodeOk = true) (hb : st.beginOk = true)
    (hins : st.insertReaction (mkInsertModel req lsid) = Except.ok rid)
    (hres : (postReactionHandler st req).1 = some (Except.ok r)) :
    r.ID = rid ∧ r.EmojiName = req.emojiName ∧ r.CreatedAt = req.now ∧
    (∃ um lm, r = { ID := rid, EmojiName := req.emojiName,
                    User := mapLookup um req.userID, Livestream := mapLookup lm lsid,
                    CreatedAt := req.now }) ∧
    (postReactionHandler st req).2.2.filter Query.isInsert =
      [Query.insertRow (mkInsertModel req lsid)] ∧
    (postReactionHandler st req).2.2.filter Query.isFactRead = [] := by
  simp only [postReactionHandler, hp, hs, hbd, hb, if_true] at hres ⊢
  simp only [postReactionInTx, hins] at hres ⊢
  rcases hfr : fillReactionResponse st [insertedModel req lsid rid]
    with ⟨fres, qs⟩
  rw [hfr] at hres
  cases fres with
  | error e => simp at hres
  | ok reactions =>
    cases reactions with
    | nil => simp at hres
    | cons r0 rest =>
      obtain ⟨um, lm, hshape⟩ := fill_ok_shape st [insertedModel req lsid rid]
        (r0 :: rest) (by rw [hfr])
      have hqs : (fillReactionResponse st [insertedModel req lsid rid]).2 = qs := by
        rw [hfr]
      simp only [assembleReactions, insertedModel, List.map_cons, List.map_nil,
        List.cons.injEq] at hshape
      cases hc : st.commitOk with
      | false =>
        rw [hc] at hres
        simp at hres
      | true =>
        rw [hc] at hres
        simp at hres
        subst hres
        refine ⟨by simp [hshape.1], by simp [hshape.1], by simp [hshape.1],
          ⟨um, lm, hshape.1⟩, ?_, ?_⟩ <;>
          rcases fill_queries_shape st [insertedModel req lsid rid]
            with h | h | h <;>
          rw [hqs] at h <;> subst h <;>
          simp [hc, List.filter, Query.isInsert, Query.isFactRead]

/-- C8 witness: posting "fire" as user 7 on livestream 42 against `dbEx`
returns the hydrated response with the assigned identity 101. -/
theorem C8_witness : rEx.ID = 101 :=
  (C8_insert_identity_roundtrip (Store.ofDB dbEx) postReqEx 42 101 rEx
    rfl rfl rfl rfl rfl (by rfl)).1

/-- C9: the reactions list query returns the facts of the requested livestream
ordered by creation timestamp descending, and a supplied limit n truncates the
result to the first n facts of that same descending order. -/
theorem C9_desc_order_and_limit (db : DB) (lsid : Int) (limit : Option Int)
    (rows : List ReactionModel) (h : sqlListReactions db lsid limit = Except.ok rows) :
    List.Sorted reactionGE rows ∧
    ∀ n, limit = some n → ∃ allRows, sqlListReactions db lsid none = Except.ok allRows ∧
      rows = allRows.take n.toNat := by
  cases limit with
  | none =>
    simp only [sqlListReactions, Except.ok.injEq] at h
    subst h
    exact ⟨List.sorted_insertionSort reactionGE _, fun n hn => by cases hn⟩
  | some n =>
    simp only [sqlListReactions] at h
    split at h
    · cases h
    · simp only [Except.ok.injEq] at h
      subst h
      refine ⟨?_, ?_⟩
      · exact List.Pairwise.sublist (List.take_sublist _ _)
          (List.sorted_insertionSort reactionGE _)
      · intro m hm
        injection hm with hnm
        subst hnm
        exact ⟨_, rfl, rfl⟩

/-- C9 witness: for livestream 42 of `dbEx` (timestamps 100, 300, 200) with
limit 2 the result is the facts with timestamps 300 and 200, in that order,
and it is sorted newest first. -/
theorem C9_witness :
    List.Sorted reactionGE rowsTop2 ∧
    rowsTop2.map (fun rm => rm.CreatedAt) = [300, 200] :=
  ⟨(C9_desc_order_and_limit dbEx 42 (some 2) rowsTop2 (by rfl)).1, by rfl⟩

/-- C10: the `reactions[0]` access in the post handler is always in bounds: on
success `fillReactionResponse` on a one-element fact list returns exactly one
response, and the post handler never reaches the out-of-bounds panic (modelled
as the `none` result). -/
theorem C10_singleton_hydration_in_bounds (st : Store) (rm : ReactionModel) (req : PostReq) :
    (∀ rs, (fillReactionResponse st [rm]).1 = Except.ok rs → rs.length = 1) ∧
    (postReactionHandler st req).1 ≠ none := by
  refine ⟨fun rs h => fill_singleton_ok_length st rm rs h, ?_⟩
  unfold postReactionHandler
  split
  · simp
  · split
    · split
      · split
        · rename_i lsid hpar hsess hbody hbeg
          rcases postReactionInTx_cases st req lsid with ⟨htx, r0, hres⟩ | ⟨htx, e, hres⟩ <;>
            simp [hres]
        · simp
      · simp
    · simp

/-- C10 witness: hydrating the single first fact of `dbEx` yields exactly one
response. -/
theorem C10_witness : rsOne.length = 1 :=
  (C10_singleton_hydration_in_bounds (Store.ofDB dbEx)
    { ID := 1, EmojiName := "fire", UserID := 7, LivestreamID := 42, CreatedAt := 100 }
    postReqEx).1 rsOne (by rfl)
